import Mathlib

/-!
Shallow embedding of `src/backend/routers/announcements.py`, the announcements
router of the school-management API, together with proofs about it.

Modelling conventions:
* A MongoDB document is an association list from string keys to BSON-like
  values (`Val`): null, string, or ObjectId.  Python `dict` key update keeps
  the key in place; a fresh key is appended at the end (`setVal`).
* The collections are modelled explicitly: `Store` is the announcements
  collection (a list of documents), and the teachers collection is modelled
  by the list of usernames it contains, since the handlers only test
  membership (`find_one({"_id": teacher_username})` is truthy iff the
  username is present).
* `datetime.now().date().isoformat()` and `datetime.now().isoformat()` are
  passed in as explicit `today` / `now` string parameters; the ObjectId
  generated by `insert_one` is the explicit `newOid` parameter.
* `datetime.fromisoformat` is modelled by `pyIsoDatetimeValid`, following the
  CPython 3.10 parser (`_parse_isoformat_date` / `_parse_isoformat_time`):
  `YYYY-MM-DD`, optionally followed by one arbitrary separator character and
  `HH[:MM[:SS[.fff[fff]]]]` with an optional `+HH:MM[:SS[.ffffff]]` or
  `-HH:MM[:SS[.ffffff]]` offset.  Numeric fields are taken to be plain digit
  runs (the model does not reproduce `int()` accepting inner signs or
  whitespace).
* Python string comparison is code-point lexicographic, as is Lean's
  `String` order.  `str.strip()` is modelled by `pyStrip`, which strips the
  ASCII whitespace characters Python strips (the model omits the rarely
  relevant non-ASCII whitespace code points).
* Each mutating handler returns the pair of its HTTP outcome and the
  post-state of the announcements collection.
-/

/-- A BSON-like value stored in a document field: null, a string, or an
ObjectId (carried as its 24-character hex representation). -/
inductive Val where
  | vnull : Val
  | vstr : String → Val
  | oidV : String → Val
deriving DecidableEq, Repr

/-- A MongoDB document, as an insertion-ordered association list. -/
abbrev Doc := List (String × Val)

/-- Dictionary lookup: value of the first (only) entry with the given key. -/
def getVal : Doc → String → Option Val
  | [], _ => none
  | (k2, v) :: rest, k => if k2 = k then some v else getVal rest k

/-- Lookup that yields a string only when the field is present and
string-valued. -/
def getStr (d : Doc) (k : String) : Option String :=
  match getVal d k with
  | some (Val.vstr s) => some s
  | _ => none

/-- Python `dict` assignment `d[k] = v`: update the key in place if present,
otherwise append the new entry at the end. -/
def setVal (d : Doc) (k : String) (v : Val) : Doc :=
  if (getVal d k).isSome then
    d.map (fun p => if p.1 = k then (k, v) else p)
  else
    d ++ [(k, v)]

/-- Python `del d[k]`. -/
def eraseKey (d : Doc) (k : String) : Doc :=
  d.filter (fun p => p.1 ≠ k)

/-- Python `str()` of a stored value, as used on `announcement["_id"]`;
only the ObjectId case is ever reached by the handlers. -/
def valToString : Val → String
  | Val.vnull => "None"
  | Val.vstr s => s
  | Val.oidV h => h

/-- The announcements collection. -/
abbrev Store := List Doc

/-- Does the document carry `_id` equal to the given ObjectId? -/
def hasOid (oid : String) (d : Doc) : Bool :=
  match getVal d "_id" with
  | some (Val.oidV h) => h = oid
  | _ => false

/-- Model of `collection.find_one({"_id": obj_id})`: first document whose
`_id` matches. -/
def find_one (st : Store) (oid : String) : Option Doc :=
  st.find? (hasOid oid)

/-- Apply a `$set` update document to one document, key by key. -/
def applyUpdates (d : Doc) (upd : List (String × Val)) : Doc :=
  upd.foldl (fun acc p => setVal acc p.1 p.2) d

/-- Model of `collection.update_one({"_id": oid}, {"$set": upd})`: updates the
first matching document; returns `(matched_count, modified_count, new store)`. -/
def update_one : Store → String → List (String × Val) → Nat × Nat × Store
  | [], _, _ => (0, 0, [])
  | d :: rest, oid, upd =>
    if hasOid oid d then
      let d2 := applyUpdates d upd
      (1, if d2 = d then 0 else 1, d2 :: rest)
    else
      let r := update_one rest oid upd
      (r.1, r.2.1, d :: r.2.2)

/-- Model of `collection.delete_one({"_id": oid})`: removes the first matching
document; returns `(deleted_count, new store)`. -/
def delete_one : Store → String → Nat × Store
  | [], _ => (0, [])
  | d :: rest, oid =>
    if hasOid oid d then (1, rest)
    else
      let r := delete_one rest oid
      (r.1, d :: r.2)

/-- An HTTPException raised by a handler: status code and detail string. -/
structure HTTPError where
  status : Nat
  detail : String
deriving DecidableEq, Repr

instance {e a : Type} [DecidableEq e] [DecidableEq a] : DecidableEq (Except e a) := fun x y =>
  match x, y with
  | Except.ok v, Except.ok w =>
    if h : v = w then Decidable.isTrue (by rw [h]) else Decidable.isFalse (by simp [h])
  | Except.error v, Except.error w =>
    if h : v = w then Decidable.isTrue (by rw [h]) else Decidable.isFalse (by simp [h])
  | Except.ok _, Except.error _ => Decidable.isFalse (by simp)
  | Except.error _, Except.ok _ => Decidable.isFalse (by simp)

/-- The ASCII whitespace characters stripped by Python's `str.strip()`. -/
def pyIsSpace (c : Char) : Bool :=
  c = ' ' || c = '\t' || c = '\n' || c = '\r' || c = '\x0b' || c = '\x0c'

/-- Model of Python `str.strip()`. -/
def pyStrip (s : String) : String :=
  String.mk (((s.data.dropWhile pyIsSpace).reverse.dropWhile pyIsSpace).reverse)

/-- Python's `<` on strings: lexicographic comparison of code points.  This
is exactly Lean's `String` order (core `String.lt` is `List.lt` on the
character data), phrased on the data lists so that it evaluates by kernel
reduction. -/
def strLt (a b : String) : Bool :=
  decide (a.data < b.data)

/-- Python's `<=` on strings: the negation of the flipped `<`. -/
def strLe (a b : String) : Bool :=
  !(strLt b a)

/-- Read a run of exactly `n` digits as a number, returning the rest. -/
def readDigits : Nat → Nat → List Char → Option (Nat × List Char)
  | acc, 0, cs => some (acc, cs)
  | _, _ + 1, [] => none
  | acc, n + 1, c :: cs =>
    if c.isDigit then readDigits (acc * 10 + (c.toNat - 48)) n cs else none

/-- Gregorian leap-year test, as in Python's `datetime`. -/
def isLeapYear (y : Nat) : Bool :=
  (y % 4 = 0 && y % 100 ≠ 0) || y % 400 = 0

/-- Days in a month, as in Python's `datetime`. -/
def daysInMonth (y m : Nat) : Nat :=
  if m = 2 then (if isLeapYear y then 29 else 28)
  else if m = 4 || m = 6 || m = 9 || m = 11 then 30
  else 31

/-- Parse a leading `YYYY-MM-DD` calendar date (with `date()` range checks);
returns the remaining characters on success. -/
def parseDateChars (cs : List Char) : Option (List Char) :=
  match readDigits 0 4 cs with
  | none => none
  | some (y, rest1) =>
    match rest1 with
    | '-' :: rest2 =>
      match readDigits 0 2 rest2 with
      | none => none
      | some (m, rest3) =>
        match rest3 with
        | '-' :: rest4 =>
          match readDigits 0 2 rest4 with
          | none => none
          | some (d, rest5) =>
            if 1 ≤ y && 1 ≤ m && m ≤ 12 && 1 ≤ d && d ≤ daysInMonth y m then
              some rest5
            else none
        | _ => none
    | _ => none

/-- Model of CPython's `_parse_hh_mm_ss_ff` plus the `time()` range checks:
`HH[:MM[:SS[.fff[fff]]]]` with hour ≤ 23, minute ≤ 59, second ≤ 59 and a
fractional part of exactly 3 or 6 digits. -/
def hhmmssValid (cs : List Char) : Bool :=
  match readDigits 0 2 cs with
  | none => false
  | some (h, rest1) =>
    h ≤ 23 &&
      match rest1 with
      | [] => true
      | ':' :: rest2 =>
        match readDigits 0 2 rest2 with
        | none => false
        | some (m, rest3) =>
          m ≤ 59 &&
            match rest3 with
            | [] => true
            | ':' :: rest4 =>
              match readDigits 0 2 rest4 with
              | none => false
              | some (s, rest5) =>
                s ≤ 59 &&
                  match rest5 with
                  | [] => true
                  | '.' :: rest6 =>
                    (rest6.length = 3 || rest6.length = 6) &&
                      rest6.all Char.isDigit
                  | _ => false
            | _ => false
      | _ => false

/-- Split a character list at the first occurrence of `c`, if any. -/
def splitFirst (c : Char) : List Char → Option (List Char × List Char)
  | [] => none
  | x :: xs =>
    if x = c then some ([], xs)
    else (splitFirst c xs).map (fun p => (x :: p.1, p.2))

/-- Model of CPython's `_parse_isoformat_time`: the time string is split at
the first `-` (else the first `+`) into clock part and UTC-offset part; the
offset must be 5, 8 or 15 characters (`HH:MM`, `HH:MM:SS`,
`HH:MM:SS.ffffff`). -/
def timePartValid (cs : List Char) : Bool :=
  match splitFirst '-' cs with
  | some (t, tz) => hhmmssValid t && (tz.length = 5 || tz.length = 8 || tz.length = 15) && hhmmssValid tz
  | none =>
    match splitFirst '+' cs with
    | some (t, tz) => hhmmssValid t && (tz.length = 5 || tz.length = 8 || tz.length = 15) && hhmmssValid tz
    | none => hhmmssValid cs

/-- Model of `datetime.fromisoformat` (CPython ≤ 3.10): a `YYYY-MM-DD` date,
optionally followed by one arbitrary separator character and a (possibly
empty) time string. -/
def pyIsoDatetimeValid (s : String) : Bool :=
  match parseDateChars s.data with
  | none => false
  | some [] => true
  | some (_sep :: t) => t.isEmpty || timePartValid t

/-- Validity check performed by `ObjectId(announcement_id)`: a 24-character
hex string. -/
def isValidObjectId (s : String) : Bool :=
  s.length = 24 && s.data.all (fun c =>
    c.isDigit || (97 ≤ c.toNat && c.toNat ≤ 102) || (65 ≤ c.toNat && c.toNat ≤ 70))

/-- Shared teacher-authentication prologue of the four protected handlers:
`if not teacher_username: 401` then `find_one({"_id": teacher_username})`
against the teachers collection. -/
def checkTeacher (teachers : List String) (teacher_username : Option String) :
    Except HTTPError String :=
  match teacher_username with
  | none => Except.error ⟨401, "Authentication required for this action"⟩
  | some u =>
    if u = "" then Except.error ⟨401, "Authentication required for this action"⟩
    else if teachers.contains u then Except.ok u
    else Except.error ⟨401, "Invalid teacher credentials"⟩

/-- The function `serialize_announcement`: if `_id` is present, set
`id = str(_id)` and delete `_id`. -/
def serialize_announcement (announcement : Doc) : Doc :=
  match getVal announcement "_id" with
  | some v => eraseKey (setVal announcement "id" (Val.vstr (valToString v))) "_id"
  | none => announcement

/-- Sort key `x.get("created_at", "")` used by the list handlers.  A present
non-string `created_at` would not compare against strings in Python; see
`WFStore`. -/
def createdKey (d : Doc) : String :=
  match getVal d "created_at" with
  | some (Val.vstr s) => s
  | _ => ""

/-- Python `list.sort(key=..., reverse=True)`: the stable descending sort by
`createdKey`. -/
def sortNewestFirst (l : List Doc) : List Doc :=
  l.mergeSort (fun a b => strLe (createdKey b) (createdKey a))

/-- The Mongo query `{"expiration_date": {"$gte": today}}`: a `$gte` with a
string operand matches exactly the documents whose field is a string `≥` it. -/
def expQueryMatch (today : String) (d : Doc) : Bool :=
  match getVal d "expiration_date" with
  | some (Val.vstr e) => strLe today e
  | _ => false

/-- The Python-side filter `start_date is None or start_date <= today`
(`dict.get` yields `None` both for an absent and for a null field).  A
present ObjectId-valued `start_date` would not compare in Python; see
`WFStore`. -/
def startOk (today : String) (d : Doc) : Bool :=
  match getVal d "start_date" with
  | none => true
  | some Val.vnull => true
  | some (Val.vstr s) => strLe s today
  | some (Val.oidV _) => false

/-- The handler `get_active_announcements` (GET `/announcements`). -/
def get_active_announcements (st : Store) (today : String) : List Doc :=
  sortNewestFirst
    (((st.filter (expQueryMatch today)).filter (startOk today)).map
      serialize_announcement)

/-- The handler `get_all_announcements` (GET `/announcements/all`). -/
def get_all_announcements (st : Store) (teachers : List String)
    (teacher_username : Option String) : Except HTTPError (List Doc) :=
  match checkTeacher teachers teacher_username with
  | Except.error e => Except.error e
  | Except.ok _ => Except.ok (sortNewestFirst (st.map serialize_announcement))

/-- Truthiness of the optional `start_date` parameter (`if start_date:`). -/
def truthy : Option String → Bool
  | none => false
  | some s => s ≠ ""

/-- The stored value of the `start_date` parameter (`None` becomes null). -/
def optToVal : Option String → Val
  | none => Val.vnull
  | some s => Val.vstr s

/-- The date-format check on `start_date`: it fails exactly when `start_date`
is truthy and `datetime.fromisoformat` rejects it. -/
def startFormatBad (sd : Option String) : Bool :=
  match sd with
  | none => false
  | some s => s ≠ "" && !(pyIsoDatetimeValid s)

/-- The date-order check: `if start_date and start_date > expiration_date`. -/
def startOrderBad (sd : Option String) (e : String) : Bool :=
  match sd with
  | none => false
  | some s => s ≠ "" && strLt e s

/-- The `$set` document built by `update_announcement`. -/
def updOf (message : String) (sv : Val) (expiration : String) : List (String × Val) :=
  [("message", Val.vstr message), ("start_date", sv), ("expiration_date", Val.vstr expiration)]

/-- The handler `create_announcement` (POST `/announcements`).  Returns the
HTTP outcome together with the post-state of the collection.  Line 139 of the
source, `del announcement["_id"] if "_id" in announcement else None`, is not
valid Python (a conditional expression is not a deletable target); it is
modelled as its evident intent, conditionally deleting `_id`. -/
def create_announcement (st : Store) (teachers : List String)
    (message expiration_date : String) (start_date : Option String)
    (teacher_username : Option String) (today now newOid : String) :
    (Except HTTPError Doc) × Store :=
  match checkTeacher teachers teacher_username with
  | Except.error e => (Except.error e, st)
  | Except.ok u =>
    if pyStrip message = "" then
      (Except.error ⟨400, "Message is required"⟩, st)
    else if expiration_date = "" then
      (Except.error ⟨400, "Expiration date is required"⟩, st)
    else if !(pyIsoDatetimeValid expiration_date) then
      (Except.error ⟨400, "Invalid date format. Use YYYY-MM-DD"⟩, st)
    else if startFormatBad start_date then
      (Except.error ⟨400, "Invalid date format. Use YYYY-MM-DD"⟩, st)
    else if strLt expiration_date today then
      (Except.error ⟨400, "Expiration date must be in the future"⟩, st)
    else if startOrderBad start_date expiration_date then
      (Except.error ⟨400, "Start date must be before expiration date"⟩, st)
    else
      let fields : Doc :=
        [("message", Val.vstr (pyStrip message)),
         ("start_date", optToVal start_date),
         ("expiration_date", Val.vstr expiration_date),
         ("created_by", Val.vstr u),
         ("created_at", Val.vstr now)]
      let stored : Doc := fields ++ [("_id", Val.oidV newOid)]
      let response : Doc := eraseKey (setVal stored "id" (Val.vstr newOid)) "_id"
      (Except.ok response, st ++ [stored])

/-- The handler `update_announcement` (PUT `/announcements/{id}`).  Returns
the HTTP outcome together with the post-state of the collection.  Note that
no `today`/`now` clock is passed: the handler performs no expiration-window
check and writes no timestamp. -/
def update_announcement (st : Store) (teachers : List String)
    (announcement_id message expiration_date : String) (start_date : Option String)
    (teacher_username : Option String) :
    (Except HTTPError Doc) × Store :=
  match checkTeacher teachers teacher_username with
  | Except.error e => (Except.error e, st)
  | Except.ok _ =>
    if !(isValidObjectId announcement_id) then
      (Except.error ⟨400, "Invalid announcement ID"⟩, st)
    else
      match find_one st announcement_id with
      | none => (Except.error ⟨404, "Announcement not found"⟩, st)
      | some _ =>
        if pyStrip message = "" then
          (Except.error ⟨400, "Message is required"⟩, st)
        else if expiration_date = "" then
          (Except.error ⟨400, "Expiration date is required"⟩, st)
        else if !(pyIsoDatetimeValid expiration_date) then
          (Except.error ⟨400, "Invalid date format. Use YYYY-MM-DD"⟩, st)
        else if startFormatBad start_date then
          (Except.error ⟨400, "Invalid date format. Use YYYY-MM-DD"⟩, st)
        else if startOrderBad start_date expiration_date then
          (Except.error ⟨400, "Start date must be before expiration date"⟩, st)
        else
          let r := update_one st announcement_id
            (updOf (pyStrip message) (optToVal start_date) expiration_date)
          if r.2.1 = 0 && r.1 = 0 then
            (Except.error ⟨500, "Failed to update announcement"⟩, r.2.2)
          else
            match find_one r.2.2 announcement_id with
            | some updated => (Except.ok (serialize_announcement updated), r.2.2)
            | none => (Except.error ⟨500, "announcement missing after update"⟩, r.2.2)

/-- The handler `delete_announcement` (DELETE `/announcements/{id}`).  Returns
the HTTP outcome (a string-to-string confirmation body) together with the
post-state of the collection. -/
def delete_announcement (st : Store) (teachers : List String)
    (announcement_id : String) (teacher_username : Option String) :
    (Except HTTPError (List (String × String))) × Store :=
  match checkTeacher teachers teacher_username with
  | Except.error e => (Except.error e, st)
  | Except.ok _ =>
    if !(isValidObjectId announcement_id) then
      (Except.error ⟨400, "Invalid announcement ID"⟩, st)
    else
      let r := delete_one st announcement_id
      if r.1 = 0 then
        (Except.error ⟨404, "Announcement not found"⟩, r.2)
      else
        (Except.ok [("message", "Announcement deleted successfully")], r.2)

/-- Field shapes under which the Python list handlers are defined:
`created_at`, when present, is a string (otherwise the sort-key comparison
would raise a `TypeError`), and `start_date`, when present, is null or a
string (otherwise the window comparison would raise). -/
def wfDoc (d : Doc) : Bool :=
  (match getVal d "created_at" with
   | none => true
   | some (Val.vstr _) => true
   | _ => false) &&
  (match getVal d "start_date" with
   | none => true
   | some Val.vnull => true
   | some (Val.vstr _) => true
   | _ => false)

/-- Domain restriction for a whole store: every document is well-shaped. -/
def WFStore (st : Store) : Prop := ∀ d ∈ st, wfDoc d = true

/-! ### Lemmas about document operations -/

theorem strLt_iff (a b : String) : strLt a b = true ↔ a < b := by
  simp only [strLt, decide_eq_true_eq]
  exact String.lt_iff_toList_lt.symm

theorem strLe_iff (a b : String) : strLe a b = true ↔ a ≤ b := by
  rw [String.le_iff_toList_le]
  simp only [strLe, strLt, Bool.not_eq_true', decide_eq_false_iff_not]
  exact not_lt

theorem getVal_nil (k : String) : getVal [] k = none := rfl

theorem getVal_cons (a : String) (b : Val) (rest : Doc) (k : String) :
    getVal ((a, b) :: rest) k = if a = k then some b else getVal rest k := rfl

theorem getVal_append_of_none (d1 d2 : Doc) (k : String) (h : getVal d1 k = none) :
    getVal (d1 ++ d2) k = getVal d2 k := by
  induction d1 with
  | nil => simp
  | cons p rest ih =>
    obtain ⟨a, b⟩ := p
    rw [getVal_cons] at h
    by_cases hk : a = k
    · rw [if_pos hk] at h
      exact absurd h (by simp)
    · rw [if_neg hk] at h
      rw [List.cons_append, getVal_cons, if_neg hk]
      exact ih h

theorem getVal_append_of_some (d1 d2 : Doc) (k : String) (v : Val)
    (h : getVal d1 k = some v) :
    getVal (d1 ++ d2) k = some v := by
  induction d1 with
  | nil => rw [getVal_nil] at h; exact absurd h (by simp)
  | cons p rest ih =>
    obtain ⟨a, b⟩ := p
    rw [getVal_cons] at h
    rw [List.cons_append, getVal_cons]
    by_cases hk : a = k
    · rwa [if_pos hk] at h ⊢
    · rw [if_neg hk] at h ⊢
      exact ih h

theorem getVal_mapSet_of_some (d : Doc) (k : String) (v w : Val)
    (h : getVal d k = some w) :
    getVal (d.map (fun p => if p.1 = k then (k, v) else p)) k = some v := by
  induction d with
  | nil => rw [getVal_nil] at h; exact absurd h (by simp)
  | cons p rest ih =>
    obtain ⟨a, b⟩ := p
    rw [getVal_cons] at h
    rw [List.map_cons]
    by_cases hk : a = k
    · rw [show (if (a, b).1 = k then (k, v) else (a, b)) = (k, v) from by simp [hk]]
      rw [getVal_cons, if_pos rfl]
    · rw [show (if (a, b).1 = k then (k, v) else (a, b)) = (a, b) from by simp [hk]]
      rw [getVal_cons, if_neg hk]
      rw [if_neg hk] at h
      exact ih h

theorem getVal_map_ne (d : Doc) (k k2 : String) (v : Val) (hne : k2 ≠ k) :
    getVal (d.map (fun p => if p.1 = k then (k, v) else p)) k2 = getVal d k2 := by
  induction d with
  | nil => simp
  | cons p rest ih =>
    obtain ⟨a, b⟩ := p
    rw [List.map_cons]
    by_cases hk : a = k
    · rw [show (if (a, b).1 = k then (k, v) else (a, b)) = (k, v) from by simp [hk]]
      rw [getVal_cons, getVal_cons, if_neg (Ne.symm hne), if_neg (hk ▸ Ne.symm hne)]
      exact ih
    · rw [show (if (a, b).1 = k then (k, v) else (a, b)) = (a, b) from by simp [hk]]
      rw [getVal_cons, getVal_cons]
      by_cases hk2 : a = k2
      · rw [if_pos hk2, if_pos hk2]
      · rw [if_neg hk2, if_neg hk2]
        exact ih

theorem getVal_setVal_self (d : Doc) (k : String) (v : Val) :
    getVal (setVal d k v) k = some v := by
  rcases hgd : getVal d k with _ | w
  · rw [setVal, hgd]
    simp only [Option.isSome_none, Bool.false_eq_true, if_false]
    rw [getVal_append_of_none d _ k hgd, getVal_cons, if_pos rfl]
  · rw [setVal, hgd]
    simp only [Option.isSome_some, if_true]
    exact getVal_mapSet_of_some d k v w hgd

theorem getVal_setVal_ne (d : Doc) (k k2 : String) (v : Val) (hne : k2 ≠ k) :
    getVal (setVal d k v) k2 = getVal d k2 := by
  rcases hgd : getVal d k with _ | w
  · rw [setVal, hgd]
    simp only [Option.isSome_none, Bool.false_eq_true, if_false]
    rcases hgd2 : getVal d k2 with _ | w2
    · rw [getVal_append_of_none d _ k2 hgd2, getVal_cons, if_neg (Ne.symm hne), getVal_nil]
    · exact getVal_append_of_some d _ k2 w2 hgd2
  · rw [setVal, hgd]
    simp only [Option.isSome_some, if_true]
    exact getVal_map_ne d k k2 v hne

theorem getVal_eraseKey_self (d : Doc) (k : String) :
    getVal (eraseKey d k) k = none := by
  induction d with
  | nil => rfl
  | cons p rest ih =>
    obtain ⟨a, b⟩ := p
    by_cases hk : a = k
    · subst hk
      simpa [eraseKey, List.filter_cons] using ih
    · simpa [eraseKey, List.filter_cons, hk, getVal_cons] using ih

theorem getVal_eraseKey_ne (d : Doc) (k k2 : String) (hne : k2 ≠ k) :
    getVal (eraseKey d k) k2 = getVal d k2 := by
  induction d with
  | nil => rfl
  | cons p rest ih =>
    obtain ⟨a, b⟩ := p
    by_cases hk : a = k
    · subst hk
      simpa [eraseKey, List.filter_cons, getVal_cons, Ne.symm hne] using ih
    · by_cases hk2 : a = k2
      · simp [eraseKey, List.filter_cons, hk, getVal_cons, hk2, hne]
      · simpa [eraseKey, List.filter_cons, hk, getVal_cons, hk2] using ih

theorem getVal_serialize_of_ne (d : Doc) (k : String) (h1 : k ≠ "_id") (h2 : k ≠ "id") :
    getVal (serialize_announcement d) k = getVal d k := by
  rcases hid : getVal d "_id" with _ | v
  · simp [serialize_announcement, hid]
  · simp only [serialize_announcement, hid]
    rw [getVal_eraseKey_ne _ _ _ h1, getVal_setVal_ne _ _ _ _ h2]

theorem getVal_serialize_id (d : Doc) :
    getVal (serialize_announcement d) "_id" = none := by
  rcases hid : getVal d "_id" with _ | v
  · simp [serialize_announcement, hid]
  · simp only [serialize_announcement, hid]
    exact getVal_eraseKey_self _ _

theorem expQueryMatch_serialize (today : String) (d : Doc) :
    expQueryMatch today (serialize_announcement d) = expQueryMatch today d := by
  unfold expQueryMatch
  rw [getVal_serialize_of_ne d "expiration_date" (by decide) (by decide)]

theorem find_one_nil (oid : String) : find_one [] oid = none := rfl

theorem find_one_cons (d : Doc) (rest : Store) (oid : String) :
    find_one (d :: rest) oid = if hasOid oid d then some d else find_one rest oid := by
  by_cases h : hasOid oid d <;> simp [find_one, List.find?_cons, h]

theorem update_one_matched (st : Store) (oid : String) (upd : List (String × Val)) (d : Doc)
    (h : find_one st oid = some d) :
    (update_one st oid upd).1 = 1 := by
  induction st with
  | nil => rw [find_one_nil] at h; exact absurd h (by simp)
  | cons d0 rest ih =>
    rw [find_one_cons] at h
    by_cases h0 : hasOid oid d0
    · simp [update_one, h0]
    · rw [if_neg h0] at h
      simpa [update_one, h0] using ih h

theorem applyUpdates_updOf (d : Doc) (m : String) (sv : Val) (e : String) :
    applyUpdates d (updOf m sv e)
      = setVal (setVal (setVal d "message" (Val.vstr m)) "start_date" sv)
          "expiration_date" (Val.vstr e) := rfl

theorem hasOid_applyUpdates_updOf (oid m : String) (sv : Val) (e : String) (d : Doc) :
    hasOid oid (applyUpdates d (updOf m sv e)) = hasOid oid d := by
  unfold hasOid
  rw [applyUpdates_updOf,
    getVal_setVal_ne _ _ _ _ (by decide),
    getVal_setVal_ne _ _ _ _ (by decide),
    getVal_setVal_ne _ _ _ _ (by decide)]

theorem update_one_find_updOf (st : Store) (oid m : String) (sv : Val) (e : String) (d : Doc)
    (h : find_one st oid = some d) :
    find_one (update_one st oid (updOf m sv e)).2.2 oid
      = some (applyUpdates d (updOf m sv e)) := by
  induction st with
  | nil => rw [find_one_nil] at h; exact absurd h (by simp)
  | cons d0 rest ih =>
    rw [find_one_cons] at h
    by_cases h0 : hasOid oid d0
    · rw [if_pos h0] at h
      obtain rfl : d0 = d := by injection h
      simp [update_one, h0, find_one_cons, hasOid_applyUpdates_updOf]
    · rw [if_neg h0] at h
      simpa [update_one, h0, find_one_cons] using ih h

theorem delete_one_not_found : ∀ (st : Store) (oid : String),
    (∀ x ∈ st, hasOid oid x = false) → delete_one st oid = (0, st)
  | [], _, _ => rfl
  | d :: rest, oid, h => by
    have hd := h d (List.mem_cons_self d rest)
    have ih := delete_one_not_found rest oid (fun x hx => h x (List.mem_cons_of_mem _ hx))
    simp [delete_one, hd, ih]

theorem delete_one_split : ∀ (pre : Store) (d : Doc) (post : Store) (oid : String),
    (∀ x ∈ pre, hasOid oid x = false) → hasOid oid d = true →
    delete_one (pre ++ d :: post) oid = (1, pre ++ post)
  | [], d, post, oid, _, hd => by simp [delete_one, hd]
  | x :: pre, d, post, oid, hpre, hd => by
    have hx := hpre x (List.mem_cons_self x pre)
    have ih := delete_one_split pre d post oid
      (fun y hy => hpre y (List.mem_cons_of_mem _ hy)) hd
    simp [delete_one, hx, ih]

theorem checkTeacher_ok (teachers : List String) (u : String)
    (hu : u ≠ "") (hmem : u ∈ teachers) :
    checkTeacher teachers (some u) = Except.ok u := by
  simp [checkTeacher, hu, hmem]

theorem checkTeacher_error_status (teachers : List String) (tu : Option String) (e : HTTPError)
    (h : checkTeacher teachers tu = Except.error e) : e.status = 401 := by
  rcases tu with _ | u
  · simp [checkTeacher] at h
    simp [← h]
  · by_cases h1 : u = ""
    · simp [checkTeacher, h1] at h
      simp [← h]
    · by_cases h2 : u ∈ teachers
      · simp [checkTeacher, h1, h2] at h
      · simp [checkTeacher, h1, h2] at h
        simp [← h]

/-! ### Concrete fixtures used by witnesses and counterexamples -/

/-- A sample ObjectId hex string. -/
def exOid : String := "507f1f77bcf86cd799439011"

/-- A sample stored announcement. -/
def exDoc : Doc :=
  [("message", Val.vstr "old"), ("start_date", Val.vnull),
   ("expiration_date", Val.vstr "2099-01-01"), ("created_by", Val.vstr "bob"),
   ("created_at", Val.vstr "2024-01-01T00:00:00"), ("_id", Val.oidV exOid)]

/-- A sample store with an active, an expired, a `created_at`-less and a
future-start announcement. -/
def exStore : Store :=
  [exDoc,
   [("message", Val.vstr "expired"), ("expiration_date", Val.vstr "2020-01-01"),
    ("created_at", Val.vstr "2019-01-01T00:00:00"),
    ("_id", Val.oidV "a00000000000000000000001")],
   [("message", Val.vstr "nocreated"), ("expiration_date", Val.vstr "2099-01-01"),
    ("_id", Val.oidV "a00000000000000000000002")],
   [("message", Val.vstr "future"), ("start_date", Val.vstr "2099-01-01"),
    ("expiration_date", Val.vstr "2099-12-31"),
    ("created_at", Val.vstr "2023-01-01T00:00:00"),
    ("_id", Val.oidV "a00000000000000000000003")],
   [("message", Val.vstr "newer"), ("created_at", Val.vstr "2025-01-01T00:00:00"),
    ("expiration_date", Val.vstr "2099-01-01"),
    ("_id", Val.oidV "a00000000000000000000004")]]

/-! ### Claim theorems -/

/-- C1: for every store state and current date, `list_active()` returns
exactly the announcements satisfying `expiration_date >= today` and
(`start_date` absent or `start_date <= today`), ordered by `created_at`
descending with records missing `created_at` sorting as the empty string;
in particular every returned record still matches `expiration_date >= today`
(so none with `expiration_date < today` is returned).  The `WFStore`
hypothesis restricts to stores on which the Python comparisons are defined. -/
theorem C1_list_active_spec (st : Store) (today : String) (_hwf : WFStore st) :
    (get_active_announcements st today).Perm
        ((st.filter fun d => expQueryMatch today d && startOk today d).map
          serialize_announcement)
    ∧ (get_active_announcements st today).Pairwise
        (fun a b => createdKey b ≤ createdKey a)
    ∧ ∀ d ∈ get_active_announcements st today, expQueryMatch today d = true := by
  refine ⟨?_, ?_, ?_⟩
  · unfold get_active_announcements sortNewestFirst
    refine (List.mergeSort_perm _ _).trans ?_
    rw [List.filter_filter]
    rw [List.filter_congr (fun d _ => Bool.and_comm (startOk today d) (expQueryMatch today d))]
  · unfold get_active_announcements sortNewestFirst
    have hp := @List.sorted_mergeSort Doc
      (fun a b : Doc => strLe (createdKey b) (createdKey a))
      (fun a b c h1 h2 => by
        rw [strLe_iff] at h1 h2 ⊢
        exact le_trans h2 h1)
      (fun a b => by
        rcases le_total (createdKey b) (createdKey a) with h | h
        · simp [(strLe_iff _ _).mpr h]
        · simp [(strLe_iff _ _).mpr h]
      )
      (((st.filter (expQueryMatch today)).filter (startOk today)).map
        serialize_announcement)
    exact hp.imp (fun h => (strLe_iff _ _).mp h)
  · intro d hd
    unfold get_active_announcements sortNewestFirst at hd
    have hd2 := (List.mergeSort_perm _ _).mem_iff.mp hd
    obtain ⟨a, ha, rfl⟩ := List.mem_map.mp hd2
    have ha2 := (List.mem_filter.mp ha).1
    have hexp := (List.mem_filter.mp ha2).2
    rw [expQueryMatch_serialize]
    exact hexp

/-- C1 witness: the specification instantiated on a concrete store and date. -/
theorem C1_witness :
    (get_active_announcements exStore "2025-10-12").Perm
        ((exStore.filter fun d =>
            expQueryMatch "2025-10-12" d && startOk "2025-10-12" d).map
          serialize_announcement)
    ∧ (get_active_announcements exStore "2025-10-12").Pairwise
        (fun a b => createdKey b ≤ createdKey a)
    ∧ ∀ d ∈ get_active_announcements exStore "2025-10-12",
        expQueryMatch "2025-10-12" d = true :=
  C1_list_active_spec exStore "2025-10-12" (by unfold WFStore; decide)

/-- C5: on the serializer used by every record-returning response, the
store-internal identifier field `_id` never appears in the output (when
present it is renamed to `id` by `serialize_announcement`).  Note the create
path cannot actually reach its `_id`-removal statement: line 139 of the
source is a Python `SyntaxError`; see the results log. -/
theorem C5_serialize_strips_internal_id (a : Doc) :
    getVal (serialize_announcement a) "_id" = none :=
  getVal_serialize_id a

/-- C3 counterexample: with valid authentication and a malformed identifier,
update and delete fail with status 400 (`InvalidInput`), not with the claimed
`NotFound` 404. -/
theorem C3_counterexample :
    (update_announcement [] ["alice"] "not-a-valid-id" "Hi" "2099-01-01" none
        (some "alice")).1
      = Except.error ⟨400, "Invalid announcement ID"⟩
    ∧ (delete_announcement [] ["alice"] "not-a-valid-id" (some "alice")).1
      = Except.error ⟨400, "Invalid announcement ID"⟩
    ∧ (400 : Nat) ≠ 404 := by
  decide

/-- C4 counterexample: a successful update stores the new field values but
leaves `updated_at` entirely absent — no current-time stamp is written
(indeed `update_announcement` consults no clock at all). -/
theorem C4_counterexample :
    (update_announcement [exDoc] ["alice"] exOid "new text" "2099-06-01" none
        (some "alice")).1
      = Except.ok
          [("message", Val.vstr "new text"), ("start_date", Val.vnull),
           ("expiration_date", Val.vstr "2099-06-01"), ("created_by", Val.vstr "bob"),
           ("created_at", Val.vstr "2024-01-01T00:00:00"), ("id", Val.vstr exOid)]
    ∧ (update_announcement [exDoc] ["alice"] exOid "new text" "2099-06-01" none
        (some "alice")).2
      = [[("message", Val.vstr "new text"), ("start_date", Val.vnull),
          ("expiration_date", Val.vstr "2099-06-01"), ("created_by", Val.vstr "bob"),
          ("created_at", Val.vstr "2024-01-01T00:00:00"), ("_id", Val.oidV exOid)]]
    ∧ ∀ d ∈ (update_announcement [exDoc] ["alice"] exOid "new text" "2099-06-01" none
        (some "alice")).2, getVal d "updated_at" = none := by
  decide

/-- C10: the date validation accepts full ISO datetimes, not only
`YYYY-MM-DD`: `2099-01-01T10:00:00` passes and is stored verbatim by a
create, and such time-suffixed strings break the lexicographic comparisons —
a record whose start datetime lies on `today` is filtered out of the active
list, and a start datetime on the same calendar day as the expiration date
is rejected by the order check. -/
theorem C10_iso_accepts_datetimes :
    pyIsoDatetimeValid "2099-01-01T10:00:00" = true
    ∧ ("2099-01-01T10:00:00" : String).length ≠ 10
    ∧ (create_announcement [] ["alice"] "Hi" "2099-01-01T10:00:00" none (some "alice")
        "2025-10-12" "2025-10-12T09:00:00" exOid).2
      = [[("message", Val.vstr "Hi"), ("start_date", Val.vnull),
          ("expiration_date", Val.vstr "2099-01-01T10:00:00"),
          ("created_by", Val.vstr "alice"), ("created_at", Val.vstr "2025-10-12T09:00:00"),
          ("_id", Val.oidV exOid)]]
    ∧ startOk "2026-01-02" [("start_date", Val.vstr "2026-01-02T00:00:00")] = false
    ∧ ("2026-01-02T00:00:00" : String).data.take 10 = ("2026-01-02" : String).data
    ∧ startOrderBad (some "2026-01-02T00:00:00") "2026-01-02" = true := by
  decide

/-! ### Branch lemmas for `create_announcement` -/

theorem pyIso_ne_empty (e : String) (h : pyIsoDatetimeValid e = true) : e ≠ "" := by
  intro hc
  subst hc
  exact absurd h (by decide)

theorem create_err_message (st : Store) (teachers : List String)
    (message expiration_date : String) (start_date teacher_username : Option String)
    (today now newOid u : String)
    (htu : teacher_username = some u) (hu : u ≠ "") (hmem : u ∈ teachers)
    (h : pyStrip message = "") :
    create_announcement st teachers message expiration_date start_date teacher_username
        today now newOid
      = (Except.error ⟨400, "Message is required"⟩, st) := by
  subst htu
  simp only [create_announcement, checkTeacher_ok teachers u hu hmem]
  rw [if_pos h]

theorem create_err_exp_missing (st : Store) (teachers : List String)
    (message expiration_date : String) (start_date teacher_username : Option String)
    (today now newOid u : String)
    (htu : teacher_username = some u) (hu : u ≠ "") (hmem : u ∈ teachers)
    (hmsg : pyStrip message ≠ "") (h : expiration_date = "") :
    create_announcement st teachers message expiration_date start_date teacher_username
        today now newOid
      = (Except.error ⟨400, "Expiration date is required"⟩, st) := by
  subst htu
  simp only [create_announcement, checkTeacher_ok teachers u hu hmem]
  rw [if_neg hmsg, if_pos h]

theorem create_err_exp_format (st : Store) (teachers : List String)
    (message expiration_date : String) (start_date teacher_username : Option String)
    (today now newOid u : String)
    (htu : teacher_username = some u) (hu : u ≠ "") (hmem : u ∈ teachers)
    (hmsg : pyStrip message ≠ "") (hne : expiration_date ≠ "")
    (h : pyIsoDatetimeValid expiration_date = false) :
    create_announcement st teachers message expiration_date start_date teacher_username
        today now newOid
      = (Except.error ⟨400, "Invalid date format. Use YYYY-MM-DD"⟩, st) := by
  subst htu
  simp only [create_announcement, checkTeacher_ok teachers u hu hmem]
  rw [if_neg hmsg, if_neg hne, if_pos (by rw [h]; rfl)]

theorem create_err_start_format (st : Store) (teachers : List String)
    (message expiration_date : String) (start_date teacher_username : Option String)
    (today now newOid u : String)
    (htu : teacher_username = some u) (hu : u ≠ "") (hmem : u ∈ teachers)
    (hmsg : pyStrip message ≠ "") (hexp : pyIsoDatetimeValid expiration_date = true)
    (h : startFormatBad start_date = true) :
    create_announcement st teachers message expiration_date start_date teacher_username
        today now newOid
      = (Except.error ⟨400, "Invalid date format. Use YYYY-MM-DD"⟩, st) := by
  subst htu
  simp only [create_announcement, checkTeacher_ok teachers u hu hmem]
  rw [if_neg hmsg, if_neg (pyIso_ne_empty _ hexp), if_neg (by rw [hexp]; exact fun hc => nomatch hc),
    if_pos h]

theorem create_err_past (st : Store) (teachers : List String)
    (message expiration_date : String) (start_date teacher_username : Option String)
    (today now newOid u : String)
    (htu : teacher_username = some u) (hu : u ≠ "") (hmem : u ∈ teachers)
    (hmsg : pyStrip message ≠ "") (hexp : pyIsoDatetimeValid expiration_date = true)
    (hsf : startFormatBad start_date = false)
    (h : strLt expiration_date today = true) :
    create_announcement st teachers message expiration_date start_date teacher_username
        today now newOid
      = (Except.error ⟨400, "Expiration date must be in the future"⟩, st) := by
  subst htu
  simp only [create_announcement, checkTeacher_ok teachers u hu hmem]
  rw [if_neg hmsg, if_neg (pyIso_ne_empty _ hexp), if_neg (by rw [hexp]; exact fun hc => nomatch hc),
    if_neg (by rw [hsf]; exact fun hc => nomatch hc), if_pos h]

theorem create_err_order (st : Store) (teachers : List String)
    (message expiration_date : String) (start_date teacher_username : Option String)
    (today now newOid u : String)
    (htu : teacher_username = some u) (hu : u ≠ "") (hmem : u ∈ teachers)
    (hmsg : pyStrip message ≠ "") (hexp : pyIsoDatetimeValid expiration_date = true)
    (hsf : startFormatBad start_date = false)
    (hfut : strLt expiration_date today = false)
    (h : startOrderBad start_date expiration_date = true) :
    create_announcement st teachers message expiration_date start_date teacher_username
        today now newOid
      = (Except.error ⟨400, "Start date must be before expiration date"⟩, st) := by
  subst htu
  simp only [create_announcement, checkTeacher_ok teachers u hu hmem]
  rw [if_neg hmsg, if_neg (pyIso_ne_empty _ hexp), if_neg (by rw [hexp]; exact fun hc => nomatch hc),
    if_neg (by rw [hsf]; exact fun hc => nomatch hc),
    if_neg (by rw [hfut]; exact fun hc => nomatch hc), if_pos h]

theorem create_success (st : Store) (teachers : List String)
    (message expiration_date : String) (start_date teacher_username : Option String)
    (today now newOid u : String)
    (htu : teacher_username = some u) (hu : u ≠ "") (hmem : u ∈ teachers)
    (hmsg : pyStrip message ≠ "") (hexp : pyIsoDatetimeValid expiration_date = true)
    (hsf : startFormatBad start_date = false)
    (hfut : strLt expiration_date today = false)
    (hso : startOrderBad start_date expiration_date = false) :
    create_announcement st teachers message expiration_date start_date teacher_username
        today now newOid
      = (Except.ok
           [("message", Val.vstr (pyStrip message)), ("start_date", optToVal start_date),
            ("expiration_date", Val.vstr expiration_date), ("created_by", Val.vstr u),
            ("created_at", Val.vstr now), ("id", Val.vstr newOid)],
         st ++
           [[("message", Val.vstr (pyStrip message)), ("start_date", optToVal start_date),
             ("expiration_date", Val.vstr expiration_date), ("created_by", Val.vstr u),
             ("created_at", Val.vstr now), ("_id", Val.oidV newOid)]]) := by
  subst htu
  simp only [create_announcement, checkTeacher_ok teachers u hu hmem]
  rw [if_neg hmsg, if_neg (pyIso_ne_empty _ hexp), if_neg (by rw [hexp]; exact fun hc => nomatch hc),
    if_neg (by rw [hsf]; exact fun hc => nomatch hc),
    if_neg (by rw [hfut]; exact fun hc => nomatch hc),
    if_neg (by rw [hso]; exact fun hc => nomatch hc)]
  rfl

theorem create_error_frame (st : Store) (teachers : List String)
    (message expiration_date : String) (start_date teacher_username : Option String)
    (today now newOid : String) (e : HTTPError)
    (h : (create_announcement st teachers message expiration_date start_date teacher_username
        today now newOid).1 = Except.error e) :
    (create_announcement st teachers message expiration_date start_date teacher_username
        today now newOid).2 = st := by
  rcases hct : checkTeacher teachers teacher_username with e2 | u
  · simp only [create_announcement, hct]
  · simp only [create_announcement, hct] at h ⊢
    split_ifs at h ⊢ <;> simp_all

/-! ### Branch lemmas for `update_announcement` and `delete_announcement` -/

theorem update_err_badid (st : Store) (teachers : List String)
    (announcement_id message expiration_date : String)
    (start_date teacher_username : Option String) (u : String)
    (htu : teacher_username = some u) (hu : u ≠ "") (hmem : u ∈ teachers)
    (h : isValidObjectId announcement_id = false) :
    update_announcement st teachers announcement_id message expiration_date start_date
        teacher_username
      = (Except.error ⟨400, "Invalid announcement ID"⟩, st) := by
  subst htu
  simp only [update_announcement, checkTeacher_ok teachers u hu hmem]
  rw [if_pos (by rw [h]; rfl)]

theorem delete_err_badid (st : Store) (teachers : List String)
    (announcement_id : String) (teacher_username : Option String) (u : String)
    (htu : teacher_username = some u) (hu : u ≠ "") (hmem : u ∈ teachers)
    (h : isValidObjectId announcement_id = false) :
    delete_announcement st teachers announcement_id teacher_username
      = (Except.error ⟨400, "Invalid announcement ID"⟩, st) := by
  subst htu
  simp only [delete_announcement, checkTeacher_ok teachers u hu hmem]
  rw [if_pos (by rw [h]; rfl)]

theorem update_err_notfound (st : Store) (teachers : List String)
    (announcement_id message expiration_date : String)
    (start_date teacher_username : Option String) (u : String)
    (htu : teacher_username = some u) (hu : u ≠ "") (hmem : u ∈ teachers)
    (hoid : isValidObjectId announcement_id = true)
    (hnone : find_one st announcement_id = none) :
    update_announcement st teachers announcement_id message expiration_date start_date
        teacher_username
      = (Except.error ⟨404, "Announcement not found"⟩, st) := by
  subst htu
  simp only [update_announcement, checkTeacher_ok teachers u hu hmem]
  rw [if_neg (by rw [hoid]; exact fun hc => nomatch hc)]
  simp only [hnone]

theorem delete_err_notfound (st : Store) (teachers : List String)
    (announcement_id : String) (teacher_username : Option String) (u : String)
    (htu : teacher_username = some u) (hu : u ≠ "") (hmem : u ∈ teachers)
    (hoid : isValidObjectId announcement_id = true)
    (hnone : find_one st announcement_id = none) :
    delete_announcement st teachers announcement_id teacher_username
      = (Except.error ⟨404, "Announcement not found"⟩, st) := by
  subst htu
  simp only [delete_announcement, checkTeacher_ok teachers u hu hmem]
  rw [if_neg (by rw [hoid]; exact fun hc => nomatch hc)]
  have hall : ∀ x ∈ st, hasOid announcement_id x = false := by
    intro x hx
    have hx2 := List.find?_eq_none.mp hnone x hx
    simpa using hx2
  have hdel := delete_one_not_found st announcement_id hall
  simp [hdel]

theorem delete_found (pre : Store) (d : Doc) (post : Store) (teachers : List String)
    (announcement_id : String) (teacher_username : Option String) (u : String)
    (htu : teacher_username = some u) (hu : u ≠ "") (hmem : u ∈ teachers)
    (hoid : isValidObjectId announcement_id = true)
    (hpre : ∀ x ∈ pre, hasOid announcement_id x = false)
    (hd : hasOid announcement_id d = true) :
    delete_announcement (pre ++ d :: post) teachers announcement_id teacher_username
      = (Except.ok [("message", "Announcement deleted successfully")], pre ++ post) := by
  subst htu
  simp only [delete_announcement, checkTeacher_ok teachers u hu hmem]
  rw [if_neg (by rw [hoid]; exact fun hc => nomatch hc)]
  have hdel := delete_one_split pre d post announcement_id hpre hd
  simp [hdel]

theorem update_success (st : Store) (teachers : List String)
    (announcement_id message expiration_date : String)
    (start_date teacher_username : Option String) (u : String) (d0 : Doc)
    (htu : teacher_username = some u) (hu : u ≠ "") (hmem : u ∈ teachers)
    (hoid : isValidObjectId announcement_id = true)
    (hfound : find_one st announcement_id = some d0)
    (hmsg : pyStrip message ≠ "")
    (hexp : pyIsoDatetimeValid expiration_date = true)
    (hsf : startFormatBad start_date = false)
    (hso : startOrderBad start_date expiration_date = false) :
    update_announcement st teachers announcement_id message expiration_date start_date
        teacher_username
      = (Except.ok (serialize_announcement
           (applyUpdates d0 (updOf (pyStrip message) (optToVal start_date) expiration_date))),
         (update_one st announcement_id
           (updOf (pyStrip message) (optToVal start_date) expiration_date)).2.2) := by
  subst htu
  simp only [update_announcement, checkTeacher_ok teachers u hu hmem]
  rw [if_neg (by rw [hoid]; exact fun hc => nomatch hc)]
  simp only [hfound]
  rw [if_neg hmsg, if_neg (pyIso_ne_empty _ hexp),
    if_neg (by rw [hexp]; exact fun hc => nomatch hc),
    if_neg (by rw [hsf]; exact fun hc => nomatch hc),
    if_neg (by rw [hso]; exact fun hc => nomatch hc)]
  have hm := update_one_matched st announcement_id
    (updOf (pyStrip message) (optToVal start_date) expiration_date) d0 hfound
  have hf := update_one_find_updOf st announcement_id (pyStrip message)
    (optToVal start_date) expiration_date d0 hfound
  simp [hm, hf]

theorem update_no500 (st : Store) (teachers : List String)
    (announcement_id message expiration_date : String)
    (start_date teacher_username : Option String) (e : HTTPError)
    (h : (update_announcement st teachers announcement_id message expiration_date start_date
        teacher_username).1 = Except.error e) :
    e.status ≠ 500 := by
  rcases hct : checkTeacher teachers teacher_username with e2 | u
  · simp only [update_announcement, hct] at h
    have h401 := checkTeacher_error_status teachers teacher_username e2 hct
    cases h
    simp [h401]
  · simp only [update_announcement, hct] at h
    by_cases hv : isValidObjectId announcement_id
    · rw [if_neg (by rw [hv]; exact fun hc => nomatch hc)] at h
      rcases hf : find_one st announcement_id with _ | d0
      · simp only [hf] at h
        cases h
        decide
      · simp only [hf] at h
        have hm := update_one_matched st announcement_id
          (updOf (pyStrip message) (optToVal start_date) expiration_date) d0 hf
        have hf2 := update_one_find_updOf st announcement_id (pyStrip message)
          (optToVal start_date) expiration_date d0 hf
        simp only [hm, hf2] at h
        split_ifs at h <;> simp_all <;> simp [← h]
    · rw [if_pos (by rw [Bool.of_not_eq_true hv]; rfl)] at h
      cases h
      decide

theorem applyUpdates_updOf_getVal (d0 : Doc) (m : String) (sv : Val) (e : String) :
    getVal (applyUpdates d0 (updOf m sv e)) "message" = some (Val.vstr m)
    ∧ getVal (applyUpdates d0 (updOf m sv e)) "start_date" = some sv
    ∧ getVal (applyUpdates d0 (updOf m sv e)) "expiration_date" = some (Val.vstr e)
    ∧ ∀ k, k ≠ "message" → k ≠ "start_date" → k ≠ "expiration_date" →
        getVal (applyUpdates d0 (updOf m sv e)) k = getVal d0 k := by
  refine ⟨?_, ?_, ?_, ?_⟩
  · rw [applyUpdates_updOf, getVal_setVal_ne _ _ _ _ (by decide),
      getVal_setVal_ne _ _ _ _ (by decide)]
    exact getVal_setVal_self _ _ _
  · rw [applyUpdates_updOf, getVal_setVal_ne _ _ _ _ (by decide)]
    exact getVal_setVal_self _ _ _
  · rw [applyUpdates_updOf]
    exact getVal_setVal_self _ _ _
  · intro k h1 h2 h3
    rw [applyUpdates_updOf, getVal_setVal_ne _ _ _ _ h3, getVal_setVal_ne _ _ _ _ h2,
      getVal_setVal_ne _ _ _ _ h1]

/-- C2: for an authenticated create call, the five validations apply in the
stated order — (1) non-blank trimmed message, (2) expiration date present and
ISO-parseable, (3) start date, if truthy, ISO-parseable, (4) expiration date
not in the past, (5) start date not after expiration date — the first failing
check produces its specific 400 reason, and whenever the 400 result is an
error the store is unchanged (no record is stored). -/
theorem C2_create_validation_order (st : Store) (teachers : List String)
    (message expiration_date : String) (start_date teacher_username : Option String)
    (today now newOid u : String)
    (htu : teacher_username = some u) (hu : u ≠ "") (hmem : u ∈ teachers) :
    (pyStrip message = "" →
      create_announcement st teachers message expiration_date start_date teacher_username
          today now newOid
        = (Except.error ⟨400, "Message is required"⟩, st))
    ∧ (pyStrip message ≠ "" → expiration_date = "" →
      create_announcement st teachers message expiration_date start_date teacher_username
          today now newOid
        = (Except.error ⟨400, "Expiration date is required"⟩, st))
    ∧ (pyStrip message ≠ "" → expiration_date ≠ "" →
        pyIsoDatetimeValid expiration_date = false →
      create_announcement st teachers message expiration_date start_date teacher_username
          today now newOid
        = (Except.error ⟨400, "Invalid date format. Use YYYY-MM-DD"⟩, st))
    ∧ (pyStrip message ≠ "" → pyIsoDatetimeValid expiration_date = true →
        startFormatBad start_date = true →
      create_announcement st teachers message expiration_date start_date teacher_username
          today now newOid
        = (Except.error ⟨400, "Invalid date format. Use YYYY-MM-DD"⟩, st))
    ∧ (pyStrip message ≠ "" → pyIsoDatetimeValid expiration_date = true →
        startFormatBad start_date = false → strLt expiration_date today = true →
      create_announcement st teachers message expiration_date start_date teacher_username
          today now newOid
        = (Except.error ⟨400, "Expiration date must be in the future"⟩, st))
    ∧ (pyStrip message ≠ "" → pyIsoDatetimeValid expiration_date = true →
        startFormatBad start_date = false → strLt expiration_date today = false →
        startOrderBad start_date expiration_date = true →
      create_announcement st teachers message expiration_date start_date teacher_username
          today now newOid
        = (Except.error ⟨400, "Start date must be before expiration date"⟩, st))
    ∧ (∀ e, (create_announcement st teachers message expiration_date start_date teacher_username
          today now newOid).1 = Except.error e →
        (create_announcement st teachers message expiration_date start_date teacher_username
          today now newOid).2 = st) := by
  refine ⟨?_, ?_, ?_, ?_, ?_, ?_, ?_⟩
  · exact fun h => create_err_message st teachers message expiration_date start_date
      teacher_username today now newOid u htu hu hmem h
  · exact fun hmsg h => create_err_exp_missing st teachers message expiration_date start_date
      teacher_username today now newOid u htu hu hmem hmsg h
  · exact fun hmsg hne h => create_err_exp_format st teachers message expiration_date start_date
      teacher_username today now newOid u htu hu hmem hmsg hne h
  · exact fun hmsg hexp h => create_err_start_format st teachers message expiration_date
      start_date teacher_username today now newOid u htu hu hmem hmsg hexp h
  · exact fun hmsg hexp hsf h => create_err_past st teachers message expiration_date start_date
      teacher_username today now newOid u htu hu hmem hmsg hexp hsf h
  · exact fun hmsg hexp hsf hfut h => create_err_order st teachers message expiration_date
      start_date teacher_username today now newOid u htu hu hmem hmsg hexp hsf hfut h
  · exact fun e he => create_error_frame st teachers message expiration_date start_date
      teacher_username today now newOid e he

/-- C2 witness: a blank message is rejected first with 400 and nothing is
stored. -/
theorem C2_witness :
    create_announcement [] ["alice"] "" "2099-01-01" none (some "alice") "2025-10-12"
        "2025-10-12T09:00:00" exOid
      = (Except.error ⟨400, "Message is required"⟩, []) :=
  (C2_create_validation_order [] ["alice"] "" "2099-01-01" none (some "alice") "2025-10-12"
      "2025-10-12T09:00:00" exOid "alice" rfl (by decide) (by decide)).1 (by decide)

/-- C3 (amended): for an authenticated update or delete, a malformed
identifier fails with 400 `InvalidInput` (`Invalid announcement ID`), while a
well-formed identifier matching no record fails with 404 `NotFound`; in both
cases the store is returned unchanged, so update never creates a record. -/
theorem C3_amended_id_errors (st : Store) (teachers : List String)
    (announcement_id message expiration_date : String)
    (start_date teacher_username : Option String) (u : String)
    (htu : teacher_username = some u) (hu : u ≠ "") (hmem : u ∈ teachers) :
    (isValidObjectId announcement_id = false →
      update_announcement st teachers announcement_id message expiration_date start_date
          teacher_username
        = (Except.error ⟨400, "Invalid announcement ID"⟩, st)
      ∧ delete_announcement st teachers announcement_id teacher_username
        = (Except.error ⟨400, "Invalid announcement ID"⟩, st))
    ∧ (isValidObjectId announcement_id = true → find_one st announcement_id = none →
      update_announcement st teachers announcement_id message expiration_date start_date
          teacher_username
        = (Except.error ⟨404, "Announcement not found"⟩, st)
      ∧ delete_announcement st teachers announcement_id teacher_username
        = (Except.error ⟨404, "Announcement not found"⟩, st)) := by
  constructor
  · intro h
    exact ⟨update_err_badid st teachers announcement_id message expiration_date start_date
        teacher_username u htu hu hmem h,
      delete_err_badid st teachers announcement_id teacher_username u htu hu hmem h⟩
  · intro hoid hnone
    exact ⟨update_err_notfound st teachers announcement_id message expiration_date start_date
        teacher_username u htu hu hmem hoid hnone,
      delete_err_notfound st teachers announcement_id teacher_username u htu hu hmem hoid hnone⟩

/-- C3 witness: the amended behaviour instantiated on an empty store with a
malformed and a well-formed identifier. -/
theorem C3_witness :
    ((isValidObjectId "zzz" = false →
      update_announcement [] ["alice"] "zzz" "Hi" "2099-01-01" none (some "alice")
        = (Except.error ⟨400, "Invalid announcement ID"⟩, [])
      ∧ delete_announcement [] ["alice"] "zzz" (some "alice")
        = (Except.error ⟨400, "Invalid announcement ID"⟩, []))
    ∧ (isValidObjectId "zzz" = true → find_one [] "zzz" = none →
      update_announcement [] ["alice"] "zzz" "Hi" "2099-01-01" none (some "alice")
        = (Except.error ⟨404, "Announcement not found"⟩, [])
      ∧ delete_announcement [] ["alice"] "zzz" (some "alice")
        = (Except.error ⟨404, "Announcement not found"⟩, [])))
    ∧ ((isValidObjectId exOid = false →
      update_announcement [] ["alice"] exOid "Hi" "2099-01-01" none (some "alice")
        = (Except.error ⟨400, "Invalid announcement ID"⟩, [])
      ∧ delete_announcement [] ["alice"] exOid (some "alice")
        = (Except.error ⟨400, "Invalid announcement ID"⟩, []))
    ∧ (isValidObjectId exOid = true → find_one [] exOid = none →
      update_announcement [] ["alice"] exOid "Hi" "2099-01-01" none (some "alice")
        = (Except.error ⟨404, "Announcement not found"⟩, [])
      ∧ delete_announcement [] ["alice"] exOid (some "alice")
        = (Except.error ⟨404, "Announcement not found"⟩, []))) :=
  ⟨C3_amended_id_errors [] ["alice"] "zzz" "Hi" "2099-01-01" none (some "alice") "alice"
      rfl (by decide) (by decide),
   C3_amended_id_errors [] ["alice"] exOid "Hi" "2099-01-01" none (some "alice") "alice"
      rfl (by decide) (by decide)⟩

/-- C4 (amended): a successful update of an existing record replaces
`message` (trimmed), `start_date` and `expiration_date` in the stored record,
and leaves every other field — in particular `created_by`, `created_at` and
`updated_at` — unchanged; no `updated_at = now` timestamp is written (the
handler consults no clock). -/
theorem C4_amended_update_frame (st : Store) (teachers : List String)
    (announcement_id message expiration_date : String)
    (start_date teacher_username : Option String) (u : String) (d0 : Doc)
    (htu : teacher_username = some u) (hu : u ≠ "") (hmem : u ∈ teachers)
    (hoid : isValidObjectId announcement_id = true)
    (hfound : find_one st announcement_id = some d0)
    (hmsg : pyStrip message ≠ "")
    (hexp : pyIsoDatetimeValid expiration_date = true)
    (hsf : startFormatBad start_date = false)
    (hso : startOrderBad start_date expiration_date = false) :
    update_announcement st teachers announcement_id message expiration_date start_date
        teacher_username
      = (Except.ok (serialize_announcement
           (applyUpdates d0 (updOf (pyStrip message) (optToVal start_date) expiration_date))),
         (update_one st announcement_id
           (updOf (pyStrip message) (optToVal start_date) expiration_date)).2.2)
    ∧ find_one (update_one st announcement_id
           (updOf (pyStrip message) (optToVal start_date) expiration_date)).2.2 announcement_id
      = some (applyUpdates d0 (updOf (pyStrip message) (optToVal start_date) expiration_date))
    ∧ getVal (applyUpdates d0 (updOf (pyStrip message) (optToVal start_date) expiration_date))
        "message" = some (Val.vstr (pyStrip message))
    ∧ getVal (applyUpdates d0 (updOf (pyStrip message) (optToVal start_date) expiration_date))
        "start_date" = some (optToVal start_date)
    ∧ getVal (applyUpdates d0 (updOf (pyStrip message) (optToVal start_date) expiration_date))
        "expiration_date" = some (Val.vstr expiration_date)
    ∧ getVal (applyUpdates d0 (updOf (pyStrip message) (optToVal start_date) expiration_date))
        "created_by" = getVal d0 "created_by"
    ∧ getVal (applyUpdates d0 (updOf (pyStrip message) (optToVal start_date) expiration_date))
        "created_at" = getVal d0 "created_at"
    ∧ getVal (applyUpdates d0 (updOf (pyStrip message) (optToVal start_date) expiration_date))
        "updated_at" = getVal d0 "updated_at" := by
  obtain ⟨g1, g2, g3, g4⟩ := applyUpdates_updOf_getVal d0 (pyStrip message)
    (optToVal start_date) expiration_date
  refine ⟨?_, ?_, g1, g2, g3, ?_, ?_, ?_⟩
  · exact update_success st teachers announcement_id message expiration_date start_date
      teacher_username u d0 htu hu hmem hoid hfound hmsg hexp hsf hso
  · exact update_one_find_updOf st announcement_id (pyStrip message) (optToVal start_date)
      expiration_date d0 hfound
  · exact g4 "created_by" (by decide) (by decide) (by decide)
  · exact g4 "created_at" (by decide) (by decide) (by decide)
  · exact g4 "updated_at" (by decide) (by decide) (by decide)

/-- C4 witness: the amended update behaviour instantiated on a one-record
store. -/
theorem C4_witness :
    update_announcement [exDoc] ["alice"] exOid "new text" "2099-06-01" none (some "alice")
      = (Except.ok (serialize_announcement
           (applyUpdates exDoc (updOf (pyStrip "new text") (optToVal none) "2099-06-01"))),
         (update_one [exDoc] exOid
           (updOf (pyStrip "new text") (optToVal none) "2099-06-01")).2.2)
    ∧ find_one (update_one [exDoc] exOid
           (updOf (pyStrip "new text") (optToVal none) "2099-06-01")).2.2 exOid
      = some (applyUpdates exDoc (updOf (pyStrip "new text") (optToVal none) "2099-06-01"))
    ∧ getVal (applyUpdates exDoc (updOf (pyStrip "new text") (optToVal none) "2099-06-01"))
        "message" = some (Val.vstr (pyStrip "new text"))
    ∧ getVal (applyUpdates exDoc (updOf (pyStrip "new text") (optToVal none) "2099-06-01"))
        "start_date" = some (optToVal none)
    ∧ getVal (applyUpdates exDoc (updOf (pyStrip "new text") (optToVal none) "2099-06-01"))
        "expiration_date" = some (Val.vstr "2099-06-01")
    ∧ getVal (applyUpdates exDoc (updOf (pyStrip "new text") (optToVal none) "2099-06-01"))
        "created_by" = getVal exDoc "created_by"
    ∧ getVal (applyUpdates exDoc (updOf (pyStrip "new text") (optToVal none) "2099-06-01"))
        "created_at" = getVal exDoc "created_at"
    ∧ getVal (applyUpdates exDoc (updOf (pyStrip "new text") (optToVal none) "2099-06-01"))
        "updated_at" = getVal exDoc "updated_at" :=
  C4_amended_update_frame [exDoc] ["alice"] exOid "new text" "2099-06-01" none (some "alice")
    "alice" exDoc rfl (by decide) (by decide) (by decide) (by decide) (by decide) (by decide)
    (by decide) (by decide)

/-- C6: an authenticated create that passes all validation appends exactly
one new record — trimmed message, the given dates, `created_by` equal to the
authenticated username, `created_at` equal to the current time — and returns
that record with its assigned `id` populated. -/
theorem C6_create_stores_record (st : Store) (teachers : List String)
    (message expiration_date : String) (start_date teacher_username : Option String)
    (today now newOid u : String)
    (htu : teacher_username = some u) (hu : u ≠ "") (hmem : u ∈ teachers)
    (hmsg : pyStrip message ≠ "") (hexp : pyIsoDatetimeValid expiration_date = true)
    (hsf : startFormatBad start_date = false)
    (hfut : strLt expiration_date today = false)
    (hso : startOrderBad start_date expiration_date = false) :
    create_announcement st teachers message expiration_date start_date teacher_username
        today now newOid
      = (Except.ok
           [("message", Val.vstr (pyStrip message)), ("start_date", optToVal start_date),
            ("expiration_date", Val.vstr expiration_date), ("created_by", Val.vstr u),
            ("created_at", Val.vstr now), ("id", Val.vstr newOid)],
         st ++
           [[("message", Val.vstr (pyStrip message)), ("start_date", optToVal start_date),
             ("expiration_date", Val.vstr expiration_date), ("created_by", Val.vstr u),
             ("created_at", Val.vstr now), ("_id", Val.oidV newOid)]]) :=
  create_success st teachers message expiration_date start_date teacher_username
    today now newOid u htu hu hmem hmsg hexp hsf hfut hso

/-- C6 witness: a concrete successful create. -/
theorem C6_witness :
    create_announcement [] ["alice"] " Exam Friday " "2099-01-01" none (some "alice")
        "2025-10-12" "2025-10-12T09:00:00" exOid
      = (Except.ok
           [("message", Val.vstr (pyStrip " Exam Friday ")), ("start_date", optToVal none),
            ("expiration_date", Val.vstr "2099-01-01"), ("created_by", Val.vstr "alice"),
            ("created_at", Val.vstr "2025-10-12T09:00:00"), ("id", Val.vstr exOid)],
         [] ++
           [[("message", Val.vstr (pyStrip " Exam Friday ")), ("start_date", optToVal none),
             ("expiration_date", Val.vstr "2099-01-01"), ("created_by", Val.vstr "alice"),
             ("created_at", Val.vstr "2025-10-12T09:00:00"), ("_id", Val.oidV exOid)]]) :=
  C6_create_stores_record [] ["alice"] " Exam Friday " "2099-01-01" none (some "alice")
    "2025-10-12" "2025-10-12T09:00:00" exOid "alice" rfl (by decide) (by decide) (by decide)
    (by decide) (by decide) (by decide) (by decide)

/-- C7: an authenticated update of an existing record with valid fields
succeeds even when the expiration date lies strictly in the past, whereas a
create with the same fields fails with the expiration-in-the-future 400 —
the asymmetry between create and update. -/
theorem C7_update_ignores_expiry (st : Store) (teachers : List String)
    (announcement_id message expiration_date : String)
    (start_date teacher_username : Option String)
    (today now newOid u : String) (d0 : Doc)
    (htu : teacher_username = some u) (hu : u ≠ "") (hmem : u ∈ teachers)
    (hoid : isValidObjectId announcement_id = true)
    (hfound : find_one st announcement_id = some d0)
    (hmsg : pyStrip message ≠ "")
    (hexp : pyIsoDatetimeValid expiration_date = true)
    (hsf : startFormatBad start_date = false)
    (hso : startOrderBad start_date expiration_date = false)
    (hpast : strLt expiration_date today = true) :
    (update_announcement st teachers announcement_id message expiration_date start_date
        teacher_username).1
      = Except.ok (serialize_announcement
          (applyUpdates d0 (updOf (pyStrip message) (optToVal start_date) expiration_date)))
    ∧ create_announcement st teachers message expiration_date start_date teacher_username
        today now newOid
      = (Except.error ⟨400, "Expiration date must be in the future"⟩, st) := by
  constructor
  · rw [update_success st teachers announcement_id message expiration_date start_date
      teacher_username u d0 htu hu hmem hoid hfound hmsg hexp hsf hso]
  · exact create_err_past st teachers message expiration_date start_date teacher_username
      today now newOid u htu hu hmem hmsg hexp hsf hpast

/-- C7 witness: updating an existing record to the past date `2020-01-01`
succeeds while the corresponding create is rejected. -/
theorem C7_witness :
    (update_announcement [exDoc] ["alice"] exOid "Hi" "2020-01-01" none (some "alice")).1
      = Except.ok (serialize_announcement
          (applyUpdates exDoc (updOf (pyStrip "Hi") (optToVal none) "2020-01-01")))
    ∧ create_announcement [exDoc] ["alice"] "Hi" "2020-01-01" none (some "alice")
        "2025-10-12" "2025-10-12T09:00:00" exOid
      = (Except.error ⟨400, "Expiration date must be in the future"⟩, [exDoc]) :=
  C7_update_ignores_expiry [exDoc] ["alice"] exOid "Hi" "2020-01-01" none (some "alice")
    "2025-10-12" "2025-10-12T09:00:00" exOid "alice" exDoc rfl (by decide) (by decide) (by decide)
    (by decide) (by decide) (by decide) (by decide) (by decide) (by decide)

/-- C8: an authenticated delete of an id present in the store removes exactly
that record and returns the confirmation body, and an immediately repeated
delete of the same id fails with 404 `NotFound` — deletion is not idempotent. -/
theorem C8_delete_not_idempotent (pre post : Store) (d : Doc) (teachers : List String)
    (announcement_id : String) (teacher_username : Option String) (u : String)
    (htu : teacher_username = some u) (hu : u ≠ "") (hmem : u ∈ teachers)
    (hoid : isValidObjectId announcement_id = true)
    (hd : hasOid announcement_id d = true)
    (hothers : ∀ x ∈ pre ++ post, hasOid announcement_id x = false) :
    delete_announcement (pre ++ d :: post) teachers announcement_id teacher_username
      = (Except.ok [("message", "Announcement deleted successfully")], pre ++ post)
    ∧ delete_announcement (pre ++ post) teachers announcement_id teacher_username
      = (Except.error ⟨404, "Announcement not found"⟩, pre ++ post) := by
  constructor
  · exact delete_found pre d post teachers announcement_id teacher_username u htu hu hmem hoid
      (fun x hx => hothers x (List.mem_append_left _ hx)) hd
  · refine delete_err_notfound (pre ++ post) teachers announcement_id teacher_username u
      htu hu hmem hoid ?_
    exact List.find?_eq_none.mpr (fun x hx => by simp [hothers x hx])

/-- C8 witness: deleting the only record succeeds once and 404s the second
time. -/
theorem C8_witness :
    delete_announcement ([] ++ exDoc :: []) ["alice"] exOid (some "alice")
      = (Except.ok [("message", "Announcement deleted successfully")], [] ++ [])
    ∧ delete_announcement ([] ++ []) ["alice"] exOid (some "alice")
      = (Except.error ⟨404, "Announcement not found"⟩, [] ++ []) :=
  C8_delete_not_idempotent [] [] exDoc ["alice"] exOid (some "alice") "alice" rfl
    (by decide) (by decide) (by decide) (by decide) (by decide)

/-- C9: the 500 `StoreFailure` branch of update — raised when the store
reports zero matched/modified records — is unreachable in the sequential
atomic store model: whenever a record with the id exists, `update_one`
matches exactly one record, and consequently `update_announcement` never
returns a 500 error. -/
theorem C9_store_failure_unreachable :
    (∀ (st : Store) (oid : String) (upd : List (String × Val)) (d : Doc),
        find_one st oid = some d → (update_one st oid upd).1 = 1)
    ∧ (∀ (st : Store) (teachers : List String)
        (announcement_id message expiration_date : String)
        (start_date teacher_username : Option String) (e : HTTPError),
        (update_announcement st teachers announcement_id message expiration_date start_date
          teacher_username).1 = Except.error e →
        e.status ≠ 500) :=
  ⟨update_one_matched, update_no500⟩

/-- C9 witness: the matched count on a concrete store, and a concrete error
result whose status is not 500. -/
theorem C9_witness :
    (update_one [exDoc] exOid [("message", Val.vstr "x")]).1 = 1
    ∧ (⟨401, "Authentication required for this action"⟩ : HTTPError).status ≠ 500 :=
  ⟨C9_store_failure_unreachable.1 [exDoc] exOid [("message", Val.vstr "x")] exDoc (by decide),
   C9_store_failure_unreachable.2 [] [] "zzz" "Hi" "2099-01-01" none none
     ⟨401, "Authentication required for this action"⟩ (by decide)⟩
